import Mathlib

/-!
Verification of the youtube-automation-agent repository.

Shallow embedding of the publishing/scheduling agent
(src/unnamed/part_004, class PublishingSchedulingAgent), the production
management agent (src/agents/production-management-agent.js, class
ProductionManagementAgent) and the daily automation gating
(src/schedules/daily-automation.js, class DailyAutomation).

Conventions of the embedding:
* JavaScript Date values (ISO strings / epoch milliseconds) are modelled
  as Int epoch milliseconds; `new Date()` becomes an explicit `now` input.
* Filesystem writes, the SQLite store and logging are side channels not
  observed by any claim; only the in-memory state they document is kept.
* External network calls (YouTube upload, AI generators) are modelled by
  oracle parameters: a Bool per generator stage, and an upload function
  returning `Except String Nat` (error message or video id).
* A JavaScript object field that may be absent is an `Option`; in
  particular an artifact lacking the `simulated` marker is `none`.
-/

/-- Time unit constants used by the source: one hour in milliseconds. -/
def hourMs : Int := 3600000

/-- One day in milliseconds (24 * 60 * 60 * 1000 as in the source). -/
def dayMs : Int := 86400000

/-- Content strategy input as read by calculatePriority /
calculatePublishTime (production-management-agent.js).  Fields not read
by those functions are omitted.  `bestPublishTime = none` models a
missing `strategy.bestPublishTime`: in JS `new Date(undefined)` is an
Invalid Date, whose NaN comparisons are all false, so no time bonus. -/
structure Strategy where
  estimatedViews : Int
  competitorAnalysis : List String
  bestPublishTime : Option Int
deriving DecidableEq

/-- Embedding of ProductionManagementAgent.calculatePriority
(production-management-agent.js lines 263-282).  The JS computes
`hoursUntilPublish = (bestPublishTime - now) / 3600000` and compares it
with 24 and 48; dividing by the positive constant preserves the
comparisons, so we compare millisecond differences directly. -/
def calculatePriority (s : Strategy) (now : Int) : Int :=
  let viewsBonus : Int :=
    if s.estimatedViews > 100000 then 30
    else if s.estimatedViews > 50000 then 20
    else if s.estimatedViews > 10000 then 10
    else 0
  let competitorBonus : Int :=
    if s.competitorAnalysis.length > 0 then 10 else 0
  let timeBonus : Int :=
    match s.bestPublishTime with
    | none => 0
    | some t =>
      if t - now < 24 * hourMs then 20
      else if t - now < 48 * hourMs then 10
      else 0
  min 100 (50 + viewsBonus + competitorBonus + timeBonus)

/-- Embedding of ProductionManagementAgent.calculatePublishTime
(production-management-agent.js lines 248-261): the strategy time when
present, otherwise tomorrow at 14:00 (modelled on the UTC day grid). -/
def calculatePublishTime (s : Strategy) (now : Int) : Int :=
  match s.bestPublishTime with
  | some t => t
  | none => (now / dayMs + 1) * dayMs + 14 * hourMs

/-- Claim C8: calculatePriority returns base 50 plus the stated bonuses,
always clamped to the interval [0, 100]; and for estimatedViews 200000
with a target publish time 12 hours away and no competitor data the
priority is exactly 100. -/
theorem calculatePriority_bounds_and_example :
    (∀ (s : Strategy) (now : Int),
      0 ≤ calculatePriority s now ∧ calculatePriority s now ≤ 100) ∧
    (∀ now : Int,
      calculatePriority
        { estimatedViews := 200000, competitorAnalysis := [],
          bestPublishTime := some (now + 12 * hourMs) } now = 100) := by
  constructor
  · intro s now
    unfold calculatePriority
    rcases s.bestPublishTime with _ | t <;> simp only [] <;> split_ifs <;>
      constructor <;> simp [hourMs]
  · intro now
    unfold calculatePriority hourMs
    norm_num

/-- Status of a publish-queue entry (part_004: the `status` field takes
the values scheduled / published / failed / paused). -/
inductive EStatus
  | scheduled
  | published
  | failed
  | paused
deriving DecidableEq

/-- Entry of the in-memory publish queue (part_004, scheduleContent lines
47-60 together with the fields written by publishContent lines 91-94,
processPublishQueue lines 222-223 and db.saveScheduleEntry, which
assigns `entry.id`).  The `metadata` object (seo / asset descriptors) is
only forwarded to the external upload call, which is an oracle here, so
it is not modelled. -/
structure Entry where
  id : Option Nat
  productionId : Nat
  title : String
  publishTime : Int
  status : EStatus
  priority : Int
  publishedAt : Option Int
  youtubeId : Option Nat
  youtubeUrl : Option String
  error : Option String
  createdAt : Int
deriving DecidableEq

/-- Ordering of queue entries used by the sorts in part_004 (comparator
`new Date(a.publishTime) - new Date(b.publishTime)`). -/
def entryLe (a b : Entry) : Prop :=
  a.publishTime ≤ b.publishTime

instance : DecidableRel entryLe :=
  fun a b => inferInstanceAs (Decidable (a.publishTime ≤ b.publishTime))

instance : IsTotal Entry entryLe :=
  ⟨fun a b => Int.le_total a.publishTime b.publishTime⟩

instance : IsTrans Entry entryLe :=
  ⟨fun _ _ _ h1 h2 => le_trans h1 h2⟩

/-- Production status (production-management-agent.js: `status` is set to
processing at creation and to ready at the end of processContent). -/
inductive ProdStatus
  | processing
  | ready
deriving DecidableEq

/-- Fields of a finished production item that scheduleContent reads
(part_004 lines 47-60): id, script.title, scheduledPublishTime,
priority, plus the status that claims C3/C4 are about. -/
structure ProductionInput where
  id : Nat
  title : String
  scheduledPublishTime : Int
  priority : Int
  status : ProdStatus
deriving DecidableEq

/-- Embedding of PublishingSchedulingAgent.scheduleContent (part_004
lines 43-73).  The JS builds the entry, pushes it, re-sorts the whole
queue ascending by publishTime, and persists it via
db.saveScheduleEntry, which assigns the fresh store id to the entry
(db.js lines 363-365); the generated id is passed in as `freshId`.
There is no status check and no duplicate check in the source. -/
def scheduleContent (freshId : Nat) (now : Int) (pd : ProductionInput)
    (q : List Entry) : Entry × List Entry :=
  let entry : Entry :=
    { id := some freshId, productionId := pd.id, title := pd.title,
      publishTime := pd.scheduledPublishTime, status := EStatus.scheduled,
      priority := pd.priority, publishedAt := none, youtubeId := none,
      youtubeUrl := none, error := none, createdAt := now }
  (entry, List.insertionSort entryLe (q ++ [entry]))

/-- Watch URL built by publishContent (part_004 line 94). -/
def publishUrl (vid : Nat) : String :=
  "https://www.youtube.com/watch?v=" ++ toString vid

/-- Embedding of PublishingSchedulingAgent.publishContent (part_004
lines 75-107).  The upload oracle `u` models uploadToYouTube; on
success the found entry is updated and the queue is filtered by
`entry.id !== scheduleEntry.id` (line 99), exactly as in the source. -/
def publishContent (u : Entry → Except String Nat) (now : Int) (cid : Nat)
    (q : List Entry) : Except String (Entry × List Entry) :=
  match q.find? (fun e => e.productionId == cid || e.id == some cid) with
  | none => Except.error ("Content not found in queue: " ++ toString cid)
  | some e =>
    match u e with
    | Except.error msg => Except.error msg
    | Except.ok vid =>
      let e2 : Entry :=
        { e with status := EStatus.published, publishedAt := some now,
                 youtubeId := some vid, youtubeUrl := some (publishUrl vid) }
      Except.ok (e2, q.filter (fun x => x.id != e.id))

/-- Entries due for publication (part_004 lines 210-213):
publishTime ≤ now and status scheduled, in queue order. -/
def dueItems (now : Int) (q : List Entry) : List Entry :=
  q.filter (fun e => decide (e.publishTime ≤ now) && e.status == EStatus.scheduled)

/-- Failure handling of processPublishQueue (part_004 lines 222-223):
the failing entry object is mutated in place to status failed with the
error message; modelled as a structural replacement in the queue. -/
def markFailed (q : List Entry) (e : Entry) (msg : String) : List Entry :=
  q.map (fun x =>
    if x = e then { e with status := EStatus.failed, error := some msg } else x)

/-- Sequential loop of processPublishQueue (part_004 lines 215-226) over
the due-item snapshot, threading the live queue and recording, per due
entry, whether its publish attempt succeeded. -/
def drainLoop (u : Entry → Except String Nat) (now : Int) :
    List Entry → List Entry → List Entry × List (Entry × Bool)
  | [], q => (q, [])
  | e :: rest, q =>
    match publishContent u now e.productionId q with
    | Except.ok (_, q2) =>
      let r := drainLoop u now rest q2
      (r.1, (e, true) :: r.2)
    | Except.error msg =>
      let r := drainLoop u now rest (markFailed q e msg)
      (r.1, (e, false) :: r.2)

/-- Result of a drain call: the final in-memory queue, the value the JS
function returns (readyToPublish.length, part_004 line 228), and the
attempt log. -/
structure DrainResult where
  queue : List Entry
  count : Nat
  log : List (Entry × Bool)
deriving DecidableEq

/-- Embedding of PublishingSchedulingAgent.processPublishQueue (part_004
lines 206-229). -/
def processPublishQueue (u : Entry → Except String Nat) (now : Int)
    (q : List Entry) : DrainResult :=
  let ready := dueItems now q
  let r := drainLoop u now ready q
  { queue := r.1, count := ready.length, log := r.2 }

/-- Embedding of PublishingSchedulingAgent.getUpcomingSchedule (part_004
lines 231-241): filter by the window now ≤ publishTime ≤ now + days
(the status field is never consulted), then sort by publishTime. -/
def getUpcomingSchedule (now : Int) (days : Nat) (q : List Entry) : List Entry :=
  List.insertionSort entryLe
    (q.filter (fun e =>
      decide (now ≤ e.publishTime) && decide (e.publishTime ≤ now + (days : Int) * dayMs)))

/-- Posting frequency setting values read by shouldGenerateContentToday
(daily-automation.js lines 171-182). -/
inductive Frequency
  | daily
  | everyTwoDays
  | threePerWeek
  | weekly
  | other
deriving DecidableEq

/-- Embedding of DailyAutomation.shouldGenerateContentToday
(daily-automation.js lines 152-186).  The JS reads the buffer setting
(default 3), the frequency setting and the last-generation timestamp;
`daysSinceLastGen` is the already-computed
`Math.floor((today - lastDate) / dayMs)` and `todayWeekday` is
`today.getDay()`. -/
def shouldGenerateContentToday (q : List Entry) (now : Int) (bufferDays : Nat)
    (freq : Frequency) (daysSinceLastGen : Option Int) (todayWeekday : Nat) : Bool :=
  let upcoming := getUpcomingSchedule now 3 q
  if upcoming.length ≥ bufferDays then false
  else
    match daysSinceLastGen with
    | none => true
    | some d =>
      match freq with
      | Frequency.daily => decide (d ≥ 1)
      | Frequency.everyTwoDays => decide (d ≥ 2)
      | Frequency.threePerWeek =>
        decide (d ≥ 2) || (todayWeekday == 1 || todayWeekday == 3 || todayWeekday == 5)
      | Frequency.weekly => decide (d ≥ 7)
      | Frequency.other => true

/-- Script input to processContent: the fields the modelled pipeline
reads (script.title, script.duration, the section count used by
processScript).  Text content feeding TTS/caption rendering is not
observed by any claim. -/
structure Script where
  title : String
  duration : Int
  sections : Nat
deriving DecidableEq

/-- Thumbnail input to processContent (the designer output; only its
optional source path is read by the fallback branch). -/
structure ThumbnailInput where
  path : Option String
deriving DecidableEq

/-- Oracle for the five fallible pipeline stages of processContent: true
means the external call of that stage succeeds, false that it throws.
thumbnailOk covers aiVideoGenerator.generateThumbnail, videoGenOk
generateVisualAssets, audioOk generateTTSAudio, captionsOk the caption
build/write (which has no try/catch in the source), assembleOk
aiVideoGenerator.generateVideo. -/
structure StageOracle where
  thumbnailOk : Bool
  videoGenOk : Bool
  audioOk : Bool
  captionsOk : Bool
  assembleOk : Bool
deriving DecidableEq

/-- Script asset produced by processScript (production-management-agent.js
lines 124-143); file paths are not modelled. -/
structure ScriptAsset where
  duration : Int
  sections : Nat
deriving DecidableEq

/-- Thumbnail asset descriptor.  The AI branch returns generatedWith
"AI" and no simulated field; the fallback branch (lines 239-244) returns
neither a generatedWith nor a simulated field. -/
structure ThumbnailAsset where
  generatedWith : Option String
  simulated : Option Bool
deriving DecidableEq

/-- Generic media asset descriptor for audio / video / finalVideo: the
claims only observe the generatedWith and simulated markers. -/
structure MediaAsset where
  generatedWith : Option String
  simulated : Option Bool
deriving DecidableEq

/-- Captions asset descriptor (generateCaptions lines 460-465). -/
structure CaptionsAsset where
  format : String
  language : String
  autoGenerated : Bool
deriving DecidableEq

/-- The assets record of a production item (processContent lines 63-69).
The JS field named audio is rendered as audioAsset here. -/
structure Assets where
  script : ScriptAsset
  thumbnail : ThumbnailAsset
  audioAsset : Option MediaAsset
  video : Option MediaAsset
  captions : Option CaptionsAsset
  finalVideo : Option MediaAsset
deriving DecidableEq

/-- The timeline record of a production item (processContent lines
70-78): per-milestone timestamps, null until the milestone is reached. -/
structure Timeline where
  created : Option Int
  scriptReady : Option Int
  thumbnailReady : Option Int
  audioGenerated : Option Int
  videoGenerated : Option Int
  captionsGenerated : Option Int
  readyForUpload : Option Int
deriving DecidableEq

/-- Production item built by processContent (lines 56-83). -/
structure ProductionItem where
  id : Nat
  status : ProdStatus
  assets : Assets
  timeline : Timeline
  scheduledPublishTime : Int
  priority : Int
  estimatedDuration : Int
deriving DecidableEq

/-- Embedding of processScript (lines 124-143): writes script files and
returns the descriptor; only duration and section count are kept. -/
def processScript (sc : Script) : ScriptAsset :=
  { duration := sc.duration, sections := sc.sections }

/-- Embedding of processThumbnail (lines 209-246): the AI branch yields
a descriptor with generatedWith "AI"; the catch branch copies the
original file or writes a placeholder file and returns a descriptor
without a generatedWith and, notably, without any simulated marker. -/
def processThumbnail (ok : Bool) (_t : ThumbnailInput) : ThumbnailAsset :=
  if ok then { generatedWith := some "AI", simulated := none }
  else { generatedWith := none, simulated := none }

/-- Embedding of generateVideoContent (lines 284-316): on success it
stores the visual-asset descriptor and stamps timeline.videoGenerated;
the catch branch calls createVideoElements, whose slide list is returned
to the caller but never stored, so assets.video stays null and the
timeline is not stamped. -/
def generateVideoContent (ok : Bool) (p : ProductionItem) (now : Int) : ProductionItem :=
  if ok then
    { p with
      assets := { p.assets with video := some { generatedWith := some "AI", simulated := none } },
      timeline := { p.timeline with videoGenerated := some now } }
  else p

/-- Embedding of simulateAudioGeneration (lines 665-681): stores a
simulated audio descriptor; it does not touch the timeline. -/
def simulateAudioGeneration (p : ProductionItem) : ProductionItem :=
  { p with
    assets := { p.assets with audioAsset := some { generatedWith := none, simulated := some true } } }

/-- Embedding of generateAudioNarration (lines 406-435): on success it
stores the AI audio descriptor and stamps timeline.audioGenerated; the
catch branch falls back to simulateAudioGeneration. -/
def generateAudioNarration (ok : Bool) (p : ProductionItem) (now : Int) : ProductionItem :=
  if ok then
    { p with
      assets := { p.assets with audioAsset := some { generatedWith := some "AI", simulated := none } },
      timeline := { p.timeline with audioGenerated := some now } }
  else simulateAudioGeneration p

/-- Embedding of generateCaptions (lines 449-470): builds and writes the
SRT file, stores the captions descriptor and stamps
timeline.captionsGenerated.  There is no try/catch around this stage, so
a throw propagates to processContent. -/
def generateCaptions (ok : Bool) (p : ProductionItem) (now : Int) :
    Except String ProductionItem :=
  if ok then
    Except.ok
      { p with
        assets := { p.assets with
          captions := some { format := "srt", language := "en", autoGenerated := true } },
        timeline := { p.timeline with captionsGenerated := some now } }
  else Except.error "captions generation failed"

/-- Embedding of simulateVideoAssembly (lines 683-705): stores a
simulated finalVideo descriptor. -/
def simulateVideoAssembly (p : ProductionItem) : ProductionItem :=
  { p with
    assets := { p.assets with finalVideo := some { generatedWith := none, simulated := some true } } }

/-- Embedding of assembleVideo (lines 558-591).  Reading
assets.video.visualAssets throws a TypeError when assets.video is null
(the generateVideoContent fallback left it null); that throw, like a
generateVideo failure, lands in the catch and falls back to
simulateVideoAssembly. -/
def assembleVideo (ok : Bool) (p : ProductionItem) : ProductionItem :=
  match p.assets.video with
  | none => simulateVideoAssembly p
  | some _ =>
    if ok then
      { p with
        assets := { p.assets with finalVideo := some { generatedWith := some "AI", simulated := none } } }
    else simulateVideoAssembly p

/-- Embedding of processContent (lines 47-115): builds the item with
script and thumbnail assets and the initial timeline, runs the video,
audio, captions and assembly stages in order, then marks the item ready
and stamps readyForUpload.  An uncaught stage error (captions) is
rethrown by the outer catch, so no item is returned. -/
def processContent (o : StageOracle) (pid : Nat) (sc : Script)
    (th : ThumbnailInput) (st : Strategy) (now : Int) :
    Except String ProductionItem :=
  let base : ProductionItem :=
    { id := pid, status := ProdStatus.processing,
      assets :=
        { script := processScript sc, thumbnail := processThumbnail o.thumbnailOk th,
          audioAsset := none, video := none, captions := none, finalVideo := none },
      timeline :=
        { created := some now, scriptReady := some now, thumbnailReady := some now,
          audioGenerated := none, videoGenerated := none, captionsGenerated := none,
          readyForUpload := none },
      scheduledPublishTime := calculatePublishTime st now,
      priority := calculatePriority st now,
      estimatedDuration := sc.duration }
  let p1 := generateVideoContent o.videoGenOk base now
  let p2 := generateAudioNarration o.audioOk p1 now
  match generateCaptions o.captionsOk p2 now with
  | Except.error msg => Except.error msg
  | Except.ok p3 =>
    let p4 := assembleVideo o.assembleOk p3
    Except.ok
      { p4 with status := ProdStatus.ready,
                timeline := { p4.timeline with readyForUpload := some now } }

/-- Sample script input used by the concrete pipeline runs. -/
def demoScript : Script :=
  { title := "t", duration := 300, sections := 2 }

/-- Sample thumbnail input used by the concrete pipeline runs. -/
def demoThumb : ThumbnailInput :=
  { path := none }

/-- Sample strategy used by the concrete pipeline runs (no recommended
publish time, so the priority time bonus is 0 and the priority is 50). -/
def demoStrategy : Strategy :=
  { estimatedViews := 0, competitorAnalysis := [], bestPublishTime := none }

/-- Oracle where every external stage call succeeds. -/
def oAllOk : StageOracle :=
  { thumbnailOk := true, videoGenOk := true, audioOk := true,
    captionsOk := true, assembleOk := true }

/-- Oracle where exactly the thumbnail generator throws. -/
def oThumbFail : StageOracle :=
  { thumbnailOk := false, videoGenOk := true, audioOk := true,
    captionsOk := true, assembleOk := true }

/-- Oracle where exactly the visual-asset generator throws. -/
def oVidFail : StageOracle :=
  { thumbnailOk := true, videoGenOk := false, audioOk := true,
    captionsOk := true, assembleOk := true }

/-- Oracle where exactly the TTS audio generator throws. -/
def oAudFail : StageOracle :=
  { thumbnailOk := true, videoGenOk := true, audioOk := false,
    captionsOk := true, assembleOk := true }

/-- Oracle where exactly the caption stage throws. -/
def oCapFail : StageOracle :=
  { thumbnailOk := true, videoGenOk := true, audioOk := true,
    captionsOk := false, assembleOk := true }

/-- Oracle where exactly the final video assembly throws. -/
def oAsmFail : StageOracle :=
  { thumbnailOk := true, videoGenOk := true, audioOk := true,
    captionsOk := true, assembleOk := false }

/-- Observable stage artifacts of a pipeline run: status, thumbnail
descriptor, audio descriptor, video descriptor, captions presence and
finalVideo descriptor. -/
def stageView (r : Except String ProductionItem) :
    Except String
      (ProdStatus × ThumbnailAsset × Option MediaAsset × Option MediaAsset ×
        Bool × Option MediaAsset) :=
  r.map (fun it =>
    (it.status, it.assets.thumbnail, it.assets.audioAsset, it.assets.video,
     it.assets.captions.isSome, it.assets.finalVideo))

/-- Claim C1, counterexample to the stated form: when exactly the
thumbnail stage generator throws, the item does reach ready, but the
fallback thumbnail descriptor carries no simulated marker at all, not
simulated = true as claimed. -/
theorem processContent_thumbnail_fallback_not_simulated :
    (processContent oThumbFail 1 demoScript demoThumb demoStrategy 0).map
        (fun it => (it.status, it.assets.thumbnail.simulated)) =
      Except.ok (ProdStatus.ready, (none : Option Bool)) ∧
    (none : Option Bool) ≠ some true :=
  ⟨rfl, by decide⟩

/-- Claim C1 (amended): for every content brief (production id, script,
thumbnail, strategy) and every time, single-stage failure is non-fatal
except for the caption stage, and the fallback marker depends on the
stage.  With exactly the audio stage failing the item reaches ready with
a simulated = true audio placeholder and all other artifacts genuinely
generated; likewise for the assembly stage and finalVideo.  With exactly
the thumbnail stage failing the item reaches ready but the fallback
thumbnail descriptor has no simulated marker.  With exactly the
visual-asset stage failing the item reaches ready with assets.video left
null and the assembly falling back to a simulated finalVideo.  With the
caption stage failing, processContent rethrows and returns no item. -/
theorem processContent_single_stage_failure_behavior (pid : Nat)
    (sc : Script) (th : ThumbnailInput) (st : Strategy) (now : Int) :
    stageView (processContent oAudFail pid sc th st now) =
      Except.ok (ProdStatus.ready, { generatedWith := some "AI", simulated := none },
        some { generatedWith := none, simulated := some true },
        some { generatedWith := some "AI", simulated := none }, true,
        some { generatedWith := some "AI", simulated := none }) ∧
    stageView (processContent oAsmFail pid sc th st now) =
      Except.ok (ProdStatus.ready, { generatedWith := some "AI", simulated := none },
        some { generatedWith := some "AI", simulated := none },
        some { generatedWith := some "AI", simulated := none }, true,
        some { generatedWith := none, simulated := some true }) ∧
    stageView (processContent oThumbFail pid sc th st now) =
      Except.ok (ProdStatus.ready, { generatedWith := none, simulated := none },
        some { generatedWith := some "AI", simulated := none },
        some { generatedWith := some "AI", simulated := none }, true,
        some { generatedWith := some "AI", simulated := none }) ∧
    stageView (processContent oVidFail pid sc th st now) =
      Except.ok (ProdStatus.ready, { generatedWith := some "AI", simulated := none },
        some { generatedWith := some "AI", simulated := none },
        (none : Option MediaAsset), true,
        some { generatedWith := none, simulated := some true }) ∧
    stageView (processContent oCapFail pid sc th st now) =
      Except.error "captions generation failed" :=
  ⟨rfl, rfl, rfl, rfl, rfl⟩

/-- Claim C2, counterexample to the stated form: a run in which the
audio stage fell back still reaches status ready, yet its
timeline.audioGenerated entry is null (simulateAudioGeneration never
stamps the timeline). -/
theorem processContent_ready_with_null_audio_timeline :
    (processContent oAudFail 1 demoScript demoThumb demoStrategy 0).map
        (fun it => (it.status, it.timeline.audioGenerated)) =
      Except.ok (ProdStatus.ready, (none : Option Int)) :=
  rfl

/-- Claim C2 (amended): every item returned by processContent has status
ready with non-null created, scriptReady, thumbnailReady,
captionsGenerated and readyForUpload timeline entries, but
audioGenerated (resp. videoGenerated) is non-null exactly when the audio
(resp. visual-asset) stage succeeded without falling back. -/
theorem processContent_ready_timeline (o : StageOracle) (pid : Nat)
    (sc : Script) (th : ThumbnailInput) (st : Strategy) (now : Int)
    (item : ProductionItem)
    (h : processContent o pid sc th st now = Except.ok item) :
    item.status = ProdStatus.ready ∧
    item.timeline.created = some now ∧
    item.timeline.scriptReady = some now ∧
    item.timeline.thumbnailReady = some now ∧
    item.timeline.captionsGenerated = some now ∧
    item.timeline.readyForUpload = some now ∧
    (item.timeline.audioGenerated = some now ↔ o.audioOk = true) ∧
    (item.timeline.videoGenerated = some now ↔ o.videoGenOk = true) := by
  obtain ⟨t, v, a, c, asm⟩ := o
  cases c <;> cases t <;> cases v <;> cases a <;> cases asm <;>
    first
      | (simp only [processContent, generateVideoContent, generateAudioNarration,
          simulateAudioGeneration, generateCaptions, assembleVideo,
          simulateVideoAssembly, processThumbnail, processScript,
          Bool.false_eq_true, if_true, if_false, Except.ok.injEq] at h
         subst h
         simp)
      | simp [processContent, generateVideoContent, generateAudioNarration,
          simulateAudioGeneration, generateCaptions, assembleVideo,
          simulateVideoAssembly, processThumbnail, processScript] at h

/-- Item produced by the all-success run at time 0 on the sample
inputs. -/
def itemAllOk0 : ProductionItem :=
  { id := 1, status := ProdStatus.ready,
    assets :=
      { script := { duration := 300, sections := 2 },
        thumbnail := { generatedWith := some "AI", simulated := none },
        audioAsset := some { generatedWith := some "AI", simulated := none },
        video := some { generatedWith := some "AI", simulated := none },
        captions := some { format := "srt", language := "en", autoGenerated := true },
        finalVideo := some { generatedWith := some "AI", simulated := none } },
    timeline :=
      { created := some 0, scriptReady := some 0, thumbnailReady := some 0,
        audioGenerated := some 0, videoGenerated := some 0,
        captionsGenerated := some 0, readyForUpload := some 0 },
    scheduledPublishTime := 136800000, priority := 50, estimatedDuration := 300 }

/-- Witness for claim C2: the timeline property evaluated on the
all-success run at time 0. -/
theorem processContent_ready_timeline_witness :
    itemAllOk0.status = ProdStatus.ready ∧
    itemAllOk0.timeline.created = some 0 ∧
    itemAllOk0.timeline.scriptReady = some 0 ∧
    itemAllOk0.timeline.thumbnailReady = some 0 ∧
    itemAllOk0.timeline.captionsGenerated = some 0 ∧
    itemAllOk0.timeline.readyForUpload = some 0 ∧
    (itemAllOk0.timeline.audioGenerated = some 0 ↔ oAllOk.audioOk = true) ∧
    (itemAllOk0.timeline.videoGenerated = some 0 ↔ oAllOk.videoGenOk = true) :=
  processContent_ready_timeline oAllOk 1 demoScript demoThumb demoStrategy 0
    itemAllOk0 rfl

/-- Number of queue entries that are scheduled for a given production
id (the quantity claim C4 bounds). -/
def scheduledCountFor (pid : Nat) (q : List Entry) : Nat :=
  q.countP (fun e => e.status == EStatus.scheduled && e.productionId == pid)

/-- Auxiliary: scheduleContent adds exactly one scheduled entry for the
item's production id and none for any other id. -/
theorem scheduledCountFor_scheduleContent (pid freshId : Nat) (now : Int)
    (pd : ProductionInput) (q : List Entry) :
    scheduledCountFor pid (scheduleContent freshId now pd q).2 =
      scheduledCountFor pid q + (if pd.id = pid then 1 else 0) := by
  unfold scheduledCountFor scheduleContent
  rw [(List.perm_insertionSort entryLe _).countP_eq, List.countP_append]
  simp [List.countP_cons]

/-- Claim C3, counterexample to the stated form: scheduleContent accepts
an item whose status is processing (not ready); no error is raised and
the queue gains the new entry. -/
theorem scheduleContent_accepts_nonready_item :
    ({ id := 1, title := "a", scheduledPublishTime := 100, priority := 50,
       status := ProdStatus.processing } : ProductionInput).status ≠ ProdStatus.ready ∧
    ((scheduleContent 7 0
        { id := 1, title := "a", scheduledPublishTime := 100, priority := 50,
          status := ProdStatus.processing } []).2).length = 1 := by
  decide

/-- Claim C3 (amended): scheduleContent performs no status validation.
For every production item, also one whose status is not ready, it
succeeds: the returned entry has status scheduled and is inserted into
the queue, which grows by one and stays sorted ascending by
publishTime. -/
theorem scheduleContent_no_status_validation (freshId : Nat) (now : Int)
    (pd : ProductionInput) (q : List Entry)
    (h : pd.status ≠ ProdStatus.ready) :
    ((scheduleContent freshId now pd q).2).length = q.length + 1 ∧
    (scheduleContent freshId now pd q).1 ∈ (scheduleContent freshId now pd q).2 ∧
    (scheduleContent freshId now pd q).1.status = EStatus.scheduled ∧
    List.Sorted entryLe (scheduleContent freshId now pd q).2 := by
  refine ⟨?_, ?_, rfl, ?_⟩
  · unfold scheduleContent
    simp [List.length_insertionSort]
  · unfold scheduleContent
    simp [List.mem_insertionSort]
  · unfold scheduleContent
    exact List.sorted_insertionSort entryLe _

/-- Sample production input with status processing. -/
def pdProcessing : ProductionInput :=
  { id := 1, title := "a", scheduledPublishTime := 100, priority := 50,
    status := ProdStatus.processing }

/-- Witness for claim C3: the no-validation behavior evaluated on a
processing-status item and the empty queue. -/
theorem scheduleContent_no_status_validation_witness :
    ((scheduleContent 7 0 pdProcessing []).2).length = ([] : List Entry).length + 1 ∧
    (scheduleContent 7 0 pdProcessing []).1 ∈ (scheduleContent 7 0 pdProcessing []).2 ∧
    (scheduleContent 7 0 pdProcessing []).1.status = EStatus.scheduled ∧
    List.Sorted entryLe (scheduleContent 7 0 pdProcessing []).2 :=
  scheduleContent_no_status_validation 7 0 pdProcessing [] (by decide)

/-- Sample production input with status ready. -/
def pdReady : ProductionInput :=
  { id := 1, title := "a", scheduledPublishTime := 100, priority := 50,
    status := ProdStatus.ready }

/-- Queue obtained by scheduling the same ready production item twice. -/
def doubleQueue : List Entry :=
  (scheduleContent 6 0 pdReady (scheduleContent 5 0 pdReady []).2).2

/-- Claim C4, counterexample to the stated form: scheduling the same
production id twice yields two coexisting entries with status scheduled
for that production id; nothing rejects the second enqueue. -/
theorem double_schedule_two_scheduled_entries :
    scheduledCountFor 1 doubleQueue = 2 ∧ ¬ scheduledCountFor 1 doubleQueue ≤ 1 := by
  decide

/-- Claim C4 (amended): scheduleContent enforces no per-production-id
uniqueness: enqueueing the same item twice always increases the number
of scheduled entries for its production id by exactly two, so the
at-most-one-scheduled-entry invariant does not hold. -/
theorem scheduleContent_allows_duplicate_productionId (pd : ProductionInput)
    (q : List Entry) (id1 id2 : Nat) (t1 t2 : Int) :
    scheduledCountFor pd.id
        (scheduleContent id2 t2 pd (scheduleContent id1 t1 pd q).2).2 =
      scheduledCountFor pd.id q + 2 := by
  rw [scheduledCountFor_scheduleContent, scheduledCountFor_scheduleContent]
  simp


/-- Auxiliary for claim C5: when the entry ids in the queue are pairwise
distinct (the store primary key guarantees this for loaded queues, and
db.saveScheduleEntry assigns fresh generated ids to new entries), the
filter on line 99 of part_004 removes exactly the published entry. -/
theorem filter_ne_id_eq_erase (q : List Entry) (e : Entry)
    (he : e ∈ q) (hnd : (q.map Entry.id).Nodup) :
    q.filter (fun x => x.id != e.id) = q.erase e := by
  induction q with
  | nil => cases he
  | cons a t ih =>
    rw [List.map_cons, List.nodup_cons] at hnd
    by_cases hae : a = e
    · subst hae
      rw [List.erase_cons_head, List.filter_cons]
      simp only [bne_self_eq_false, Bool.false_eq_true, if_false]
      apply List.filter_eq_self.mpr
      intro x hx
      have hmem : x.id ∈ t.map Entry.id := List.mem_map_of_mem Entry.id hx
      simp only [bne_iff_ne, ne_eq, decide_eq_true_eq]
      intro hxe
      exact hnd.1 (hxe ▸ hmem)
    · have het : e ∈ t := by
        rcases List.mem_cons.mp he with h1 | h1
        · exact absurd h1.symm hae
        · exact h1
      have haid : (a.id != e.id) = true := by
        simp only [bne_iff_ne, ne_eq]
        intro hh
        have hmem : e.id ∈ t.map Entry.id := List.mem_map_of_mem Entry.id het
        exact hnd.1 (hh ▸ hmem)
      rw [List.filter_cons, if_pos haid, List.erase_cons_tail, ih het hnd.2]
      simp [hae]

/-- Claim C5: on a queue with pairwise-distinct entry ids, a successful
publishContent returns the found entry updated to status published with
publishedAt, youtubeId and youtubeUrl set, and the in-memory queue with
exactly that entry removed; every other entry is still present and
unmodified. -/
theorem publishContent_success_frame (u : Entry → Except String Nat)
    (now : Int) (cid : Nat) (q : List Entry) (e : Entry) (vid : Nat)
    (hnd : (q.map Entry.id).Nodup)
    (hfind : q.find? (fun x => x.productionId == cid || x.id == some cid) = some e)
    (hup : u e = Except.ok vid) :
    publishContent u now cid q =
      Except.ok
        ({ e with status := EStatus.published, publishedAt := some now,
                  youtubeId := some vid, youtubeUrl := some (publishUrl vid) },
         q.erase e) := by
  have he : e ∈ q := List.mem_of_find?_eq_some hfind
  unfold publishContent
  rw [hfind]
  simp only [hup]
  rw [filter_ne_id_eq_erase q e he hnd]

/-- Queue entry fixture: a scheduled entry with the given store id,
production id and publish time. -/
def mkEntry (sid pid : Nat) (t : Int) (st : EStatus) : Entry :=
  { id := some sid, productionId := pid, title := "", publishTime := t,
    status := st, priority := 50, publishedAt := none, youtubeId := none,
    youtubeUrl := none, error := none, createdAt := 0 }

/-- Upload oracle that always succeeds with video id 7. -/
def uOk7 : Entry → Except String Nat :=
  fun _ => Except.ok 7

/-- Upload oracle that always throws. -/
def uFailUp : Entry → Except String Nat :=
  fun _ => Except.error "upload failed"

/-- Witness for claim C5: publishing production 10 out of a two-entry
queue removes exactly its entry and updates it. -/
theorem publishContent_success_frame_witness :
    publishContent uOk7 99 10 [mkEntry 1 10 5 EStatus.scheduled, mkEntry 2 11 9 EStatus.scheduled] =
      Except.ok
        ({ mkEntry 1 10 5 EStatus.scheduled with
            status := EStatus.published, publishedAt := some 99,
            youtubeId := some 7, youtubeUrl := some (publishUrl 7) },
         ([mkEntry 1 10 5 EStatus.scheduled, mkEntry 2 11 9 EStatus.scheduled] : List Entry).erase
           (mkEntry 1 10 5 EStatus.scheduled)) :=
  publishContent_success_frame uOk7 99 10
    [mkEntry 1 10 5 EStatus.scheduled, mkEntry 2 11 9 EStatus.scheduled]
    (mkEntry 1 10 5 EStatus.scheduled) 7 (by decide) (by decide) rfl

/-- Auxiliary for claims C6/C7: the drain loop attempts a publish for
every entry of the due snapshot, in snapshot order, whatever the
outcomes of earlier attempts. -/
theorem drainLoop_log_fst (u : Entry → Except String Nat) (now : Int)
    (l : List Entry) :
    ∀ q : List Entry, (drainLoop u now l q).2.map Prod.fst = l := by
  induction l with
  | nil =>
    intro q
    rfl
  | cons e rest ih =>
    intro q
    unfold drainLoop
    rcases hpc : publishContent u now e.productionId q with msg | pr
    · simp [hpc, ih]
    · rcases pr with ⟨e0, q2⟩
      simp [hpc, ih]

/-- Two-entry sorted queue fixture, both due at time 20. -/
def qW : List Entry :=
  [mkEntry 1 21 5 EStatus.scheduled, mkEntry 2 22 10 EStatus.scheduled]

/-- Two-entry queue fixture stored out of publishTime order (reachable
in the source: optimizePublishTimes, part_004 lines 243-261, rewrites
entry.publishTime without re-sorting the queue, and loadPublishQueue
takes the store order as is). -/
def qUnsorted : List Entry :=
  [mkEntry 3 31 10 EStatus.scheduled, mkEntry 4 32 5 EStatus.scheduled]

/-- Claim C6, counterexample to the stated form: on a queue state whose
stored order disagrees with publishTime order, processPublishQueue
attempts the due entries in stored order, here publish times 10 then 5,
which is not non-decreasing. -/
theorem processPublishQueue_order_violation :
    (processPublishQueue uOk7 20 qUnsorted).log.map (fun p => p.1.publishTime) =
      [10, 5] ∧
    ¬ List.Sorted entryLe ((processPublishQueue uOk7 20 qUnsorted).log.map Prod.fst) := by
  constructor
  · decide
  · decide

/-- Claim C6 (amended): processPublishQueue attempts the due entries
(status scheduled, publishTime ≤ now) in queue order, which is
non-decreasing publishTime order whenever the queue is sorted by
publishTime, as scheduleContent maintains; when the publish attempt for
the due entry at hand throws, the drain loop logs that attempt as failed,
continues over the remaining due entries, and threads a queue in which
that entry is marked status failed with the error message. -/
theorem processPublishQueue_order_and_failure_isolation
    (u : Entry → Except String Nat) (now : Int) (q : List Entry)
    (hs : List.Sorted entryLe q) :
    (processPublishQueue u now q).log.map Prod.fst = dueItems now q ∧
    List.Sorted entryLe ((processPublishQueue u now q).log.map Prod.fst) ∧
    ∀ (e : Entry) (rest qq : List Entry) (msg : String), e ∈ qq →
      publishContent u now e.productionId qq = Except.error msg →
      (drainLoop u now (e :: rest) qq).2 =
        (e, false) :: (drainLoop u now rest (markFailed qq e msg)).2 ∧
      (drainLoop u now (e :: rest) qq).1 =
        (drainLoop u now rest (markFailed qq e msg)).1 ∧
      { e with status := EStatus.failed, error := some msg } ∈ markFailed qq e msg := by
  have h1 : (processPublishQueue u now q).log.map Prod.fst = dueItems now q :=
    drainLoop_log_fst u now (dueItems now q) q
  refine ⟨h1, ?_, ?_⟩
  · rw [h1]
    exact List.Pairwise.sublist (List.filter_sublist q) hs
  · intro e rest qq msg he hpc
    have hstep : drainLoop u now (e :: rest) qq =
        ((drainLoop u now rest (markFailed qq e msg)).1,
         (e, false) :: (drainLoop u now rest (markFailed qq e msg)).2) := by
      conv_lhs => rw [drainLoop]
      rw [hpc]
    refine ⟨by rw [hstep], by rw [hstep], ?_⟩
    unfold markFailed
    exact List.mem_map.mpr ⟨e, he, by simp⟩

/-- Witness for claim C6: evaluated on a sorted two-entry queue with an
always-failing upload; both due entries are attempted in order, the
first attempt is logged as failed, the loop continues on the second due
entry from the marked queue, and the marked queue holds the first entry
with status failed and the error message. -/
theorem processPublishQueue_order_and_failure_isolation_witness :
    (processPublishQueue uFailUp 20 qW).log.map Prod.fst = dueItems 20 qW ∧
    (drainLoop uFailUp 20
        (mkEntry 1 21 5 EStatus.scheduled :: [mkEntry 2 22 10 EStatus.scheduled]) qW).2 =
      (mkEntry 1 21 5 EStatus.scheduled, false) ::
        (drainLoop uFailUp 20 [mkEntry 2 22 10 EStatus.scheduled]
          (markFailed qW (mkEntry 1 21 5 EStatus.scheduled) "upload failed")).2 ∧
    { mkEntry 1 21 5 EStatus.scheduled with
        status := EStatus.failed, error := some "upload failed" } ∈
      markFailed qW (mkEntry 1 21 5 EStatus.scheduled) "upload failed" :=
  ⟨(processPublishQueue_order_and_failure_isolation uFailUp 20 qW (by decide)).1,
   ((processPublishQueue_order_and_failure_isolation uFailUp 20 qW (by decide)).2.2
     (mkEntry 1 21 5 EStatus.scheduled) [mkEntry 2 22 10 EStatus.scheduled] qW
     "upload failed" (by decide) rfl).1,
   ((processPublishQueue_order_and_failure_isolation uFailUp 20 qW (by decide)).2.2
     (mkEntry 1 21 5 EStatus.scheduled) [mkEntry 2 22 10 EStatus.scheduled] qW
     "upload failed" (by decide) rfl).2.2⟩

/-- Claim C7, counterexample to the stated form: with a single due entry
whose upload throws, processPublishQueue returns 1 even though no
publish succeeded (the log records one failed attempt and the final
queue holds no published entry). -/
theorem processPublishQueue_counts_failed_attempt :
    (processPublishQueue uFailUp 20 [mkEntry 1 21 5 EStatus.scheduled]).count = 1 ∧
    ((processPublishQueue uFailUp 20 [mkEntry 1 21 5 EStatus.scheduled]).log.filter
        (fun p => p.2)).length = 0 ∧
    (processPublishQueue uFailUp 20 [mkEntry 1 21 5 EStatus.scheduled]).queue.countP
        (fun e => e.status == EStatus.published) = 0 := by
  decide

/-- Claim C7 (amended): processPublishQueue returns the number of due
entries it attempted (readyToPublish.length), not the number of
successful publishes: the returned count equals the due-item count and
is independent of the upload outcomes. -/
theorem processPublishQueue_returns_due_count
    (u1 u2 : Entry → Except String Nat) (now : Int) (q : List Entry) :
    (processPublishQueue u1 now q).count = (dueItems now q).length ∧
    (processPublishQueue u1 now q).count = (processPublishQueue u2 now q).count :=
  ⟨rfl, rfl⟩

/-- Three scheduled entries inside the three-day upcoming window from
time 0. -/
def qBuffer : List Entry :=
  [mkEntry 1 1 1000 EStatus.scheduled, mkEntry 2 2 2000 EStatus.scheduled,
   mkEntry 3 3 3000 EStatus.scheduled]

/-- Claim C9, counterexample to the stated form: with an upcoming count
of 3 and the buffer lowered to 2, shouldGenerateContentToday still
returns false (the gate skips whenever count ≥ buffer), not true as
claimed. -/
theorem shouldGenerateContentToday_buffer_two_false :
    shouldGenerateContentToday qBuffer 0 2 Frequency.daily none 0 ≠ true := by
  decide

/-- Claim C9 (amended): with an upcoming-schedule count of 3 and buffer
3 the gate returns false; lowering the buffer to 2 with the same count
still returns false, since generation is skipped whenever the count is
at least the buffer; the gate returns true once the buffer exceeds the
count, for example buffer 4 with no recorded last generation. -/
theorem shouldGenerateContentToday_gating (freq : Frequency)
    (lg : Option Int) (wd : Nat) :
    shouldGenerateContentToday qBuffer 0 3 freq lg wd = false ∧
    shouldGenerateContentToday qBuffer 0 2 freq lg wd = false ∧
    shouldGenerateContentToday qBuffer 0 4 freq none wd = true := by
  have h3 : (getUpcomingSchedule 0 3 qBuffer).length = 3 := by decide
  refine ⟨?_, ?_, ?_⟩ <;> simp [shouldGenerateContentToday, h3]

/-- Three non-scheduled entries (paused, failed, published) inside the
three-day upcoming window from time 0. -/
def qMixed : List Entry :=
  [mkEntry 1 1 1000 EStatus.paused, mkEntry 2 2 2000 EStatus.failed,
   mkEntry 3 3 3000 EStatus.published]

/-- Claim C10: getUpcomingSchedule selects entries solely by the window
now ≤ publishTime ≤ now + days and never consults status, so a queue of
only paused, failed and published entries inside the window still counts
3 and suppresses content generation under buffer 3. -/
theorem getUpcomingSchedule_ignores_status :
    (∀ (q : List Entry) (now : Int) (days : Nat) (e : Entry),
      e ∈ getUpcomingSchedule now days q ↔
        e ∈ q ∧ now ≤ e.publishTime ∧ e.publishTime ≤ now + (days : Int) * dayMs) ∧
    qMixed.all (fun e => e.status != EStatus.scheduled) = true ∧
    (∀ (freq : Frequency) (lg : Option Int) (wd : Nat),
      shouldGenerateContentToday qMixed 0 3 freq lg wd = false) := by
  refine ⟨?_, by decide, ?_⟩
  · intro q now days e
    unfold getUpcomingSchedule
    rw [List.mem_insertionSort]
    simp [List.mem_filter, and_assoc]
  · intro freq lg wd
    have h3 : (getUpcomingSchedule 0 3 qMixed).length = 3 := by decide
    simp [shouldGenerateContentToday, h3]
